import Mathlib

/-!
Shallow embedding of the transaction engine of `fastapi_db`
(`src/fastapi_db/extensions.py`, enums from `src/fastapi_db/transaction_enums.py`).

Sessions are modelled by natural-number identifiers handed out by the session
factory counter; every externally visible action on a session or a callback is
recorded in an event log.  The context-local slot (`ContextVar`) holds at most
one `TransactionContext`; `set` returns a token carrying the previous slot
value and `reset token` restores that value, exactly as Python's
`contextvars.ContextVar` behaves for the token-discipline this code uses.
-/

/-- `Propagation` enum (`transaction_enums.py`). -/
inductive Propagation : Type where
  | REQUIRED
  | NEW
  | MANDATORY
deriving DecidableEq, Repr

/-- `Isolation` enum (`transaction_enums.py`). -/
inductive Isolation : Type where
  | DEFAULT
  | READ_UNCOMMITTED
  | READ_COMMITTED
  | REPEATABLE_READ
  | SERIALIZABLE
deriving DecidableEq, Repr

/-- Python exception values that flow through the engine: business errors
raised by a unit of work, errors raised by `session.commit()`, and
`SessionContextError` (the spec's NoTransactionContext) raised by
`get_transaction_context` / `build_session`. -/
inductive Exc : Type where
  | userErr (n : Nat)
  | commitFailure (n : Nat)
  | sessionContextError
deriving DecidableEq, Repr

/-- Python values a callback may return; `__exit__` only ever tests the
return of `exception_callback` with `rollback is False`. -/
inductive PyVal : Type where
  | vNone
  | vFalse
  | vTrue
  | vInt (n : Nat)
deriving DecidableEq, Repr

/-- Origin tag of a context (`source` attribute: `'normal'` or `'request'`). -/
inductive SourceTag : Type where
  | normal
  | request
deriving DecidableEq, Repr

/-- Observable events: session operations (`commit`, `rollback`, `close`,
`execute(SET SESSION TRANSACTION ISOLATION LEVEL ...)`) and callback
invocations with the argument they were passed. -/
inductive Op : Type where
  | commit (sid : Nat)
  | rollback (sid : Nat)
  | close (sid : Nat)
  | execIso (sid : Nat) (iso : Isolation)
  | cbException (arg : Option Exc)
  | cbRollback (arg : Option Exc)
deriving DecidableEq, Repr

/-- `TransactionContext` (`extensions.py` lines 100-146).  `token` models the
`_token` attribute: `none` is the Python `None` it is initialised to, and
`some old` is the `ContextVar` token retained after `set_transaction_context`,
carrying the previous slot value `old`.  Callbacks are unary functions of the
error value (the engine passes `exc_val : Option Exc`). -/
inductive TransactionContext : Type where
  | mk (session : Nat)
       (propagation : Propagation)
       (isolation : Isolation)
       (autocommit : Bool)
       (is_super : Bool)
       (is_active_isolation : Bool)
       (source : SourceTag)
       (rollback_callback : Option (Option Exc → PyVal))
       (exception_callback : Option (Option Exc → PyVal))
       (token : Option (Option TransactionContext)) : TransactionContext

namespace TransactionContext

def session : TransactionContext → Nat
  | .mk s _ _ _ _ _ _ _ _ _ => s

def propagation : TransactionContext → Propagation
  | .mk _ p _ _ _ _ _ _ _ _ => p

def isolation : TransactionContext → Isolation
  | .mk _ _ i _ _ _ _ _ _ _ => i

def autocommit : TransactionContext → Bool
  | .mk _ _ _ a _ _ _ _ _ _ => a

def is_super : TransactionContext → Bool
  | .mk _ _ _ _ sup _ _ _ _ _ => sup

def is_active_isolation : TransactionContext → Bool
  | .mk _ _ _ _ _ act _ _ _ _ => act

def source : TransactionContext → SourceTag
  | .mk _ _ _ _ _ _ src _ _ _ => src

def rollback_callback : TransactionContext → Option (Option Exc → PyVal)
  | .mk _ _ _ _ _ _ _ r _ _ => r

def exception_callback : TransactionContext → Option (Option Exc → PyVal)
  | .mk _ _ _ _ _ _ _ _ e _ => e

def token : TransactionContext → Option (Option TransactionContext)
  | .mk _ _ _ _ _ _ _ _ _ t => t

def with_is_super (c : TransactionContext) (b : Bool) : TransactionContext :=
  match c with
  | .mk s p i a _ act src r e t => .mk s p i a b act src r e t

def with_active (c : TransactionContext) (b : Bool) : TransactionContext :=
  match c with
  | .mk s p i a sup _ src r e t => .mk s p i a sup b src r e t

def with_token (c : TransactionContext)
    (t : Option (Option TransactionContext)) : TransactionContext :=
  match c with
  | .mk s p i a sup act src r e _ => .mk s p i a sup act src r e t

end TransactionContext

/-- Mutable process state visible to the engine: the context-local slot
(`_transaction_context` `ContextVar`), the session-factory counter (fresh
sessions are numbered `nextSession`, `nextSession + 1`, ...), and the event
log. -/
structure World : Type where
  slot : Option TransactionContext
  nextSession : Nat
  log : List Op

/-- In Python, `self.active_isolation` inside `active_isolation` denotes the
bound method object, which is always truthy. -/
def boundMethodTruthy : Bool := true

/-- `TransactionContext.active_isolation` (`extensions.py` lines 133-140).
The guard is `isolation == Isolation.DEFAULT or self.active_isolation`; the
second disjunct reads the bound method (always truthy), not the
`is_active_isolation` flag, so the branch issuing the
`SET SESSION TRANSACTION ISOLATION LEVEL` statement is unreachable. -/
def active_isolation (c : TransactionContext) (iso : Isolation) (σ : World) :
    Bool × TransactionContext × World :=
  if iso = Isolation.DEFAULT ∨ boundMethodTruthy = true then
    (true, c.with_active true, σ)
  else
    (true, c.with_active true,
      { σ with log := σ.log ++ [Op.execIso c.session iso] })

/-- `TransactionContext.__init__` (`extensions.py` lines 113-131): fields are
assigned (`_token = None`, `is_super = False`, `source = 'normal'`), then
`self.is_active_isolation = self.active_isolation(self.isolation)` runs. -/
def mkTransactionContext (session : Nat) (propagation : Propagation)
    (isolation : Isolation) (autocommit : Bool)
    (rollback_callback exception_callback : Option (Option Exc → PyVal))
    (σ : World) : TransactionContext × World :=
  let c0 : TransactionContext :=
    .mk session propagation isolation autocommit false false .normal
      rollback_callback exception_callback none
  let r := active_isolation c0 isolation σ
  (r.2.1.with_active r.1, r.2.2)

/-- `TransactionManager.build_session` (`extensions.py` lines 223-244).
`get_transaction_context` is attempted and its failure mapped to `none`;
MANDATORY with no ambient context raises `SessionContextError` before the
session factory is touched; NEW always draws a fresh session from the
factory; REQUIRED reuses the ambient session when present.  The trailing
`RuntimeError('unknown propagation')` branch is unreachable under the closed
enum. -/
def build_session (p : Propagation) (σ : World) : Except Exc (Nat × World) :=
  let old_transaction := σ.slot
  match p with
  | .MANDATORY =>
    match old_transaction with
    | none => .error .sessionContextError
    | some old => .ok (old.session, σ)
  | .NEW =>
    .ok (σ.nextSession, { σ with nextSession := σ.nextSession + 1 })
  | .REQUIRED =>
    match old_transaction with
    | none => .ok (σ.nextSession, { σ with nextSession := σ.nextSession + 1 })
    | some old => .ok (old.session, σ)

/-- `TransactionManager.__enter__` (`extensions.py` lines 168-191).
`autocommit` falls back to the extension default when `None`; the session is
resolved by `build_session`; a fresh `TransactionContext` is constructed;
`is_super` is `True` for NEW propagation or when `get_transaction_context`
raises (empty slot), `False` when an ambient context was found; finally the
context is stored in the slot and the returned token is written into the
context object (the slot holds that same object, so the stored context
carries its token). -/
def tm_enter (p : Propagation) (iso : Isolation) (autocommit : Option Bool)
    (rollback_callback exception_callback : Option (Option Exc → PyVal))
    (defaultAutocommit : Bool) (σ : World) :
    Except Exc (TransactionContext × World) :=
  let ac := autocommit.getD defaultAutocommit
  match build_session p σ with
  | .error e => .error e
  | .ok (sid, σ1) =>
    let r := mkTransactionContext sid p iso ac
      rollback_callback exception_callback σ1
    let c0 := r.1
    let σ2 := r.2
    let sup : Bool :=
      match p with
      | .NEW => true
      | _ => σ2.slot.isNone
    let tok := σ2.slot
    let c1 := (c0.with_is_super sup).with_token (some tok)
    .ok (c1, { σ2 with slot := some c1 })

/-- `transaction_pop` (`extensions.py` lines 327-341).  When the slot is
empty the function returns `None`; otherwise `autocommit` defaults to the
context's own flag, the session is committed when it is set (`beh` tells
whether that commit raises), the session is closed, and the slot is reset
with the context's retained token (which restores the previous slot value).
Returns the new state and the error the call raised, if any. -/
def transaction_pop (beh : Nat → Option Exc) (autocommit : Option Bool)
    (σ : World) : World × Option Exc :=
  match σ.slot with
  | none => (σ, none)
  | some tc =>
    let ac := autocommit.getD tc.autocommit
    if ac then
      let σ1 := { σ with log := σ.log ++ [Op.commit tc.session] }
      match beh tc.session with
      | some e => (σ1, some e)
      | none =>
        let σ2 := { σ1 with log := σ1.log ++ [Op.close tc.session] }
        ({ σ2 with slot := (tc.token.getD none) }, none)
    else
      let σ2 := { σ with log := σ.log ++ [Op.close tc.session] }
      ({ σ2 with slot := (tc.token.getD none) }, none)

/-- `TransactionManager.__exit__` (`extensions.py` lines 193-221), given the
commit behaviour `beh` of each session (`beh sid = some e` means
`session.commit()` raises `e`) and the error `exc_val` with which the body of
the `with` block exited (`none` for normal completion).  The context acted on
is whatever the slot currently holds; only a context whose `is_super` flag is
set does anything.  Returns the new state and the error raised by `__exit__`
itself (`raise e` on commit failure), `none` otherwise. -/
def tm_exit (beh : Nat → Option Exc) (exc_val : Option Exc) (σ : World) :
    World × Option Exc :=
  match σ.slot with
  | none => (σ, some .sessionContextError)
  | some tc =>
    if tc.is_super then
      let σ1 :=
        match exc_val with
        | none => σ
        | some _ =>
          let rb : Option PyVal :=
            match tc.exception_callback with
            | none => none
            | some f => some (f exc_val)
          let σa :=
            match tc.exception_callback with
            | none => σ
            | some _ => { σ with log := σ.log ++ [Op.cbException exc_val] }
          let σb :=
            if rb = some PyVal.vFalse then
              { σa with log := σa.log ++ [Op.rollback tc.session] }
            else σa
          match tc.rollback_callback with
          | none => σb
          | some _ => { σb with log := σb.log ++ [Op.cbRollback exc_val] }
      if tc.autocommit then
        let σ2 := { σ1 with log := σ1.log ++ [Op.commit tc.session] }
        match beh tc.session with
        | none => ((transaction_pop beh (some false) σ2).1, none)
        | some e =>
          let σ3 :=
            match tc.exception_callback with
            | none => σ2
            | some _ => { σ2 with log := σ2.log ++ [Op.cbException exc_val] }
          let σ4 := { σ3 with log := σ3.log ++ [Op.rollback tc.session] }
          let σ5 :=
            match tc.rollback_callback with
            | none => σ4
            | some _ => { σ4 with log := σ4.log ++ [Op.cbRollback exc_val] }
          (σ5, some e)
      else
        ((transaction_pop beh (some false) σ1).1, none)
    else
      (σ, none)

/-- The error a caller of the `with` block observes: an error raised by
`__exit__` replaces the body's error; otherwise the body's error (if any)
propagates because `__exit__` returns a falsy value. -/
def observedError (bodyErr exitRaised : Option Exc) : Option Exc :=
  match exitRaised with
  | some e => some e
  | none => bodyErr

/-- Empty initial state: no ambient context, factory counter at 0. -/
def world0 : World := { slot := none, nextSession := 0, log := [] }

/-- Commit behaviour in which every `session.commit()` succeeds. -/
def behOk : Nat → Option Exc := fun _ => none

/-- Commit behaviour in which every `session.commit()` raises error 7. -/
def behCommitFail : Nat → Option Exc := fun _ => some (Exc.commitFailure 7)

/-- A callback returning Python `None`. -/
def cbNone : Option Exc → PyVal := fun _ => PyVal.vNone

/-- A callback returning Python `False`. -/
def cbFalse : Option Exc → PyVal := fun _ => PyVal.vFalse

/-- Run for C1: a top-level NEW scope (autocommit) wrapping one nested
REQUIRED scope; both units of work complete normally; first the nested
scope's exit runs, then the outer scope's exit. -/
def runC1 : World :=
  match tm_enter Propagation.NEW Isolation.DEFAULT (some true) none none true
      world0 with
  | .error _ => world0
  | .ok (_, σ1) =>
    match tm_enter Propagation.REQUIRED Isolation.DEFAULT (some true) none none
        true σ1 with
    | .error _ => σ1
    | .ok (_, σ2) =>
      let r1 := tm_exit behOk none σ2
      let r2 := tm_exit behOk none r1.1
      r2.1

/-- Run for C2's counterexample: a top-level NEW scope with
`rollback_callback` present, `exception_callback` absent, autocommit on;
the unit of work raises `userErr 0`; `session.commit()` succeeds. -/
def runC2 : World × Option Exc :=
  match tm_enter Propagation.NEW Isolation.DEFAULT (some true) (some cbNone)
      none true world0 with
  | .error _ => (world0, none)
  | .ok (_, σ1) => tm_exit behOk (some (Exc.userErr 0)) σ1

/-- Run for C3/C4: a top-level NEW scope with both callbacks present and
autocommit on; the unit of work completes normally (`exc_val = None`); the
`session.commit()` call raises `commitFailure 7`. -/
def runC34 : World × Option Exc :=
  match tm_enter Propagation.NEW Isolation.DEFAULT (some true) (some cbNone)
      (some cbNone) true world0 with
  | .error _ => (world0, none)
  | .ok (_, σ1) => tm_exit behCommitFail none σ1

/-- Total wrapper around `tm_enter` for runs where entry is known to
succeed; on the (unused) error branch a dummy context is returned. -/
def enterOk (p : Propagation) (iso : Isolation) (ac : Option Bool)
    (rcb ecb : Option (Option Exc → PyVal)) (d : Bool) (σ : World) :
    TransactionContext × World :=
  match tm_enter p iso ac rcb ecb d σ with
  | .ok r => r
  | .error _ =>
    (.mk 0 .NEW .DEFAULT true false false .normal none none none, σ)

/-- Events appended by the error branch of `__exit__` (lines 200-207): the
exception callback runs when present, its return being Python `False` forces
a `session.rollback()`, then the rollback callback runs when present. -/
def errOps (tc : TransactionContext) (exc_val : Option Exc) : List Op :=
  match exc_val with
  | none => []
  | some _ =>
    (match tc.exception_callback with
     | none => []
     | some _ => [Op.cbException exc_val])
    ++ (if tc.exception_callback.map (fun f => f exc_val) = some PyVal.vFalse
        then [Op.rollback tc.session] else [])
    ++ (match tc.rollback_callback with
        | none => []
        | some _ => [Op.cbRollback exc_val])

/-- Declared parameters of one nested transactional unit. -/
structure UnitDecl : Type where
  iso : Isolation
  ac : Option Bool
  rcb : Option (Option Exc → PyVal)
  ecb : Option (Option Exc → PyVal)

/-- Successively enter one REQUIRED scope per declared unit, collecting the
contexts the entries produce (the nesting chain of C9). -/
def required_chain : List UnitDecl → Bool → World → List TransactionContext × World
  | [], _, σ => ([], σ)
  | u :: us, d, σ =>
    match tm_enter .REQUIRED u.iso u.ac u.rcb u.ecb d σ with
    | .error _ => ([], σ)
    | .ok (c, σ1) =>
      let r := required_chain us d σ1
      (c :: r.1, r.2)

instance : Inhabited TransactionContext :=
  ⟨.mk 0 .NEW .DEFAULT true false false .normal none none none⟩

/-- Context and state resulting from building a SERIALIZABLE context (C5). -/
def c5Ctx : TransactionContext × World :=
  mkTransactionContext 0 Propagation.NEW Isolation.SERIALIZABLE true none none
    world0

/-- A nested (non-super) context as produced by a REQUIRED entry inside a
top-level scope (witness input for C10). -/
def c10Ctx : TransactionContext :=
  .mk 0 .REQUIRED .DEFAULT true false true .normal none none (some none)

/-- Concrete super context with both callbacks present, the exception
callback returning Python `False` (witness input for C2's amended claim). -/
def c2wCtx : TransactionContext :=
  .mk 5 .NEW .DEFAULT true true true .normal (some cbNone) (some cbFalse)
    (some none)

/-- State after a top-level NEW entry at the empty state. -/
def σOuter : World := (enterOk .NEW .DEFAULT (some true) none none true world0).2

/-- Context of that top-level NEW entry. -/
def c0W : TransactionContext :=
  (enterOk .NEW .DEFAULT (some true) none none true world0).1

/-- Context produced by a REQUIRED entry inside the ambient state `σOuter`
(witness input for C6 and C9). -/
def c6Inner : TransactionContext × World :=
  enterOk .REQUIRED .DEFAULT (some true) none none true σOuter

/-- One REQUIRED unit declaration (witness input for C9). -/
def u9W : UnitDecl := ⟨.DEFAULT, some true, none, none⟩

/-- The element of the length-one REQUIRED chain entered inside `σOuter`. -/
def c9Elem : TransactionContext :=
  (enterOk .REQUIRED .DEFAULT (some true) none none true σOuter).1

/-- Ambient context for the C8 witness. -/
def c8Amb : TransactionContext :=
  .mk 0 .REQUIRED .DEFAULT true true true .normal none none (some none)

/-- Run for C8's counterexample: a NEW scope entered over the ambient
context `c8Amb` (session 0) whose own `session.commit()` raises. -/
def runC8 : World × Option Exc :=
  tm_exit behCommitFail none
    (enterOk .NEW .DEFAULT (some true) none none true ⟨some c8Amb, 1, []⟩).2

/-- Helper: a successful entry stores the produced context in the slot. -/
theorem enter_slot_some (p : Propagation) (iso : Isolation) (ac : Option Bool)
    (rcb ecb : Option (Option Exc → PyVal)) (d : Bool) (σ : World)
    (c : TransactionContext) (σ' : World)
    (h : tm_enter p iso ac rcb ecb d σ = .ok (c, σ')) : σ'.slot = some c := by
  unfold tm_enter at h
  cases hb : build_session p σ with
  | error e => rw [hb] at h; exact absurd h (by simp)
  | ok v =>
    rw [hb] at h
    simp only [Except.ok.injEq, Prod.mk.injEq] at h
    obtain ⟨hc, hσ⟩ := h
    rw [← hσ, ← hc]

/-- Helper: the guard of `active_isolation` is always true (its second
disjunct is the truthiness of a bound method), so the call only sets the
flag and returns `True`. -/
theorem active_isolation_eq (c : TransactionContext) (iso : Isolation)
    (σ : World) :
    active_isolation c iso σ = (true, c.with_active true, σ) := by
  unfold active_isolation
  split
  · rfl
  · next h => exact absurd (Or.inr rfl) h

/-- Helper: reduced form of the context constructor. -/
theorem mkTransactionContext_eq (s : Nat) (p : Propagation) (iso : Isolation)
    (a : Bool) (rcb ecb : Option (Option Exc → PyVal)) (σ : World) :
    mkTransactionContext s p iso a rcb ecb σ =
      (.mk s p iso a false true .normal rcb ecb none, σ) := by
  unfold mkTransactionContext
  simp only [active_isolation_eq]
  rfl

/-- Helper: full characterisation of a super `__exit__` whose
`session.commit()` does not raise: error-branch events, an autocommit
commit, `session.close()`, and the slot reset with the context's token. -/
theorem tm_exit_super_ok (tc : TransactionContext) (n : Nat) (l : List Op)
    (beh : Nat → Option Exc) (exc_val : Option Exc)
    (hsup : tc.is_super = true) (hbeh : beh tc.session = none) :
    tm_exit beh exc_val ⟨some tc, n, l⟩ =
      ({ slot := tc.token.getD none, nextSession := n,
         log := l ++ (errOps tc exc_val
           ++ (if tc.autocommit then [Op.commit tc.session] else [])
           ++ [Op.close tc.session]) }, none) := by
  obtain ⟨s, p, i, a, sup, act, src, rcb, ecb, tok⟩ := tc
  simp only [TransactionContext.is_super] at hsup
  subst hsup
  simp only [TransactionContext.session] at hbeh
  cases exc_val with
  | none =>
    cases a <;>
      simp_all [tm_exit, transaction_pop, errOps,
        TransactionContext.is_super, TransactionContext.session,
        TransactionContext.autocommit, TransactionContext.exception_callback,
        TransactionContext.rollback_callback, TransactionContext.token]
  | some e =>
    cases ecb <;> cases rcb <;> cases a <;>
      simp_all [tm_exit, transaction_pop, errOps,
        TransactionContext.is_super, TransactionContext.session,
        TransactionContext.autocommit, TransactionContext.exception_callback,
        TransactionContext.rollback_callback, TransactionContext.token] <;>
      split_ifs <;> simp_all

/-- C1: refuted by the code.  In a top-level NEW scope wrapping one nested
REQUIRED scope (both units succeeding), the outer super scope's exit reads
the current slot, which still holds the nested non-super context, so it does
nothing: the final log is empty (no commit, rollback or close was ever
performed — zero finalisations instead of exactly one) and the slot still
holds the nested context. -/
theorem c1_nesting_loses_all_finalization :
    runC1.log = [] ∧ runC1.slot.map TransactionContext.is_super = some false
    ∧ runC1.nextSession = 1 := by
  decide

/-- C3: refuted by the code.  With both callbacks present and autocommit on,
a successful unit followed by a failing `session.commit()` makes `__exit__`
invoke `exception_callback` and `rollback_callback` with `exc_val` — which is
`None` on a successful unit — not with the new commit error; the commit error
itself is what the caller observes. -/
theorem c3_commit_failure_callbacks_get_none :
    runC34.1.log =
      [Op.commit 0, Op.cbException none, Op.rollback 0, Op.cbRollback none]
    ∧ runC34.2 = some (Exc.commitFailure 7)
    ∧ Op.cbException (some (Exc.commitFailure 7)) ∉ runC34.1.log
    ∧ Op.cbRollback (some (Exc.commitFailure 7)) ∉ runC34.1.log := by
  decide

/-- C4: refuted by the code.  On the commit-failure exit path `raise e` runs
before `transaction_pop`, so `session.close()` is never called and the
context-local slot is not restored: the session leaks and the slot still
holds the dead context. -/
theorem c4_commit_failure_skips_close_and_restore :
    Op.close 0 ∉ runC34.1.log ∧ runC34.1.slot.isSome = true
    ∧ runC34.2 = some (Exc.commitFailure 7) := by
  decide

/-- C5: refuted by the code.  Constructing a Transaction Context with a
non-DEFAULT isolation level (SERIALIZABLE) and no ambient context issues zero
isolation-level statements — the guard of `active_isolation` reads the bound
method `self.active_isolation`, which is always truthy, so the
`SET SESSION TRANSACTION ISOLATION LEVEL` branch is unreachable; re-invoking
the activation on the same context also issues nothing. -/
theorem c5_isolation_statement_never_issued :
    c5Ctx.2.log = []
    ∧ (active_isolation c5Ctx.1 Isolation.SERIALIZABLE c5Ctx.2).2.2.log = []
    ∧ c5Ctx.1.is_active_isolation = true := by
  decide

/-- C10: confirmed.  The exit of a non-super scope performs no session
operation and does not restore the slot: state and log are returned
unchanged, the slot still holds the nested context, its token is never
consumed, and no error is raised. -/
theorem c10_non_super_exit_changes_nothing (tc : TransactionContext) (n : Nat)
    (l : List Op) (beh : Nat → Option Exc) (exc_val : Option Exc)
    (hsup : tc.is_super = false) :
    tm_exit beh exc_val ⟨some tc, n, l⟩ = (⟨some tc, n, l⟩, none) := by
  simp [tm_exit, hsup]

/-- Witness for C10 at a concrete nested context. -/
theorem c10_non_super_exit_changes_nothing_witness :
    c10Ctx.is_super = false
    ∧ tm_exit behOk none ⟨some c10Ctx, 1, []⟩ = (⟨some c10Ctx, 1, []⟩, none) :=
  ⟨rfl, c10_non_super_exit_changes_nothing c10Ctx 1 [] behOk none rfl⟩

/-- Counterexample to C2 as stated: a top-level scope with a rollback
callback but no exception callback whose unit raises `userErr 0` —
`rollback_callback` is invoked once with the error, but `session.rollback()`
is never called; instead, autocommit being on, the session is committed
despite the error and then closed. -/
theorem c2_counterexample_no_rollback_without_exception_callback :
    runC2.1.log =
      [Op.cbRollback (some (Exc.userErr 0)), Op.commit 0, Op.close 0]
    ∧ Op.rollback 0 ∉ runC2.1.log ∧ runC2.2 = none := by
  decide

/-- C2 amended: when the wrapped unit of a top-level scope raises `e` and
`session.commit()` itself does not raise, `rollback_callback` (when present)
is invoked exactly once with `e`, but `session.rollback()` is called if and
only if `exception_callback` is present and returns exactly Python `False`
on `e`; when autocommit is on the session is committed despite the error,
and it is closed in every case. -/
theorem c2_amended_rollback_only_on_false_callback (tc : TransactionContext)
    (n : Nat) (l : List Op) (beh : Nat → Option Exc) (e : Exc)
    (hsup : tc.is_super = true) (hbeh : beh tc.session = none) :
    ((tm_exit beh (some e) ⟨some tc, n, l⟩).1.log.drop l.length).count
        (Op.cbRollback (some e)) = (if tc.rollback_callback.isSome then 1 else 0)
    ∧ (Op.rollback tc.session ∈
          (tm_exit beh (some e) ⟨some tc, n, l⟩).1.log.drop l.length
        ↔ tc.exception_callback.map (fun f => f (some e)) = some PyVal.vFalse)
    ∧ (tc.autocommit = true →
        Op.commit tc.session ∈
          (tm_exit beh (some e) ⟨some tc, n, l⟩).1.log.drop l.length)
    ∧ Op.close tc.session ∈
        (tm_exit beh (some e) ⟨some tc, n, l⟩).1.log.drop l.length := by
  rw [tm_exit_super_ok tc n l beh (some e) hsup hbeh]
  simp only [List.drop_left]
  obtain ⟨s, p, i, a, sup, act, src, rcb, ecb, tok⟩ := tc
  cases ecb <;> cases rcb <;> cases a <;>
    simp_all [errOps, TransactionContext.session,
      TransactionContext.autocommit, TransactionContext.exception_callback,
      TransactionContext.rollback_callback] <;>
    split_ifs <;> simp_all

/-- Witness for C2's amended claim: both callbacks present, the exception
callback returning `False`, autocommit on. -/
theorem c2_amended_rollback_only_on_false_callback_witness :
    c2wCtx.is_super = true ∧ behOk c2wCtx.session = none
    ∧ ((tm_exit behOk (some (Exc.userErr 1)) ⟨some c2wCtx, 6, []⟩).1.log.drop
          (List.length ([] : List Op))).count (Op.cbRollback (some (Exc.userErr 1)))
        = (if c2wCtx.rollback_callback.isSome then 1 else 0)
    ∧ (Op.rollback c2wCtx.session ∈
          (tm_exit behOk (some (Exc.userErr 1)) ⟨some c2wCtx, 6, []⟩).1.log.drop
            (List.length ([] : List Op))
        ↔ c2wCtx.exception_callback.map (fun f => f (some (Exc.userErr 1)))
            = some PyVal.vFalse) :=
  ⟨rfl, rfl,
    (c2_amended_rollback_only_on_false_callback c2wCtx 6 [] behOk
      (Exc.userErr 1) rfl rfl).1,
    (c2_amended_rollback_only_on_false_callback c2wCtx 6 [] behOk
      (Exc.userErr 1) rfl rfl).2.1⟩

/-- C7: confirmed.  A MANDATORY entry with an empty slot fails with
`SessionContextError` (the spec's NoTransactionContext) and no session is
created — the entry returns the error before the factory is consulted;
with an ambient context present the entry succeeds reusing the ambient
session, still without drawing from the factory. -/
theorem c7_mandatory_needs_ambient_context (iso : Isolation) (ac : Option Bool)
    (rcb ecb : Option (Option Exc → PyVal)) (d : Bool) (σ : World) :
    (σ.slot = none →
      tm_enter .MANDATORY iso ac rcb ecb d σ = .error .sessionContextError)
    ∧ ∀ amb, σ.slot = some amb →
        ∃ c σ', tm_enter .MANDATORY iso ac rcb ecb d σ = .ok (c, σ')
          ∧ c.session = amb.session ∧ σ'.nextSession = σ.nextSession := by
  obtain ⟨s, n, l⟩ := σ
  constructor
  · intro h
    simp only at h
    subst h
    rfl
  · intro amb h
    simp only at h
    subst h
    have henter : tm_enter .MANDATORY iso ac rcb ecb d ⟨some amb, n, l⟩ =
        .ok (.mk amb.session .MANDATORY iso (ac.getD d) false true .normal rcb
               ecb (some (some amb)),
             ⟨some (.mk amb.session .MANDATORY iso (ac.getD d) false true
               .normal rcb ecb (some (some amb))), n, l⟩) := by
      unfold tm_enter
      rw [show build_session .MANDATORY ⟨some amb, n, l⟩
            = .ok (amb.session, ⟨some amb, n, l⟩) from rfl]
      simp only [mkTransactionContext_eq]
      rfl
    exact ⟨_, _, henter, rfl, rfl⟩

/-- Witness for C7 at the empty state. -/
theorem c7_mandatory_needs_ambient_context_witness :
    world0.slot = none
    ∧ tm_enter .MANDATORY .DEFAULT (some true) none none true world0
        = .error .sessionContextError :=
  ⟨rfl,
    (c7_mandatory_needs_ambient_context .DEFAULT (some true) none none true
      world0).1 rfl⟩

/-- C6: confirmed.  A successful entry produces a context whose `is_super`
flag is true exactly when the propagation is NEW or the slot held no ambient
context, and false exactly when an ambient context existed and the entry
joined it with REQUIRED or MANDATORY propagation. -/
theorem c6_is_super_characterisation (p : Propagation) (iso : Isolation)
    (ac : Option Bool) (rcb ecb : Option (Option Exc → PyVal)) (d : Bool)
    (σ : World) (c : TransactionContext) (σ' : World)
    (h : tm_enter p iso ac rcb ecb d σ = .ok (c, σ')) :
    (c.is_super = true ↔ (p = .NEW ∨ σ.slot = none))
    ∧ (c.is_super = false ↔
        (σ.slot ≠ none ∧ (p = .REQUIRED ∨ p = .MANDATORY))) := by
  obtain ⟨s, n, l⟩ := σ
  cases p <;> cases s <;>
    first
    | (simp only [tm_enter, build_session, mkTransactionContext_eq,
         Except.ok.injEq, Prod.mk.injEq] at h
       obtain ⟨hc, hσ⟩ := h
       subst hc
       simp [TransactionContext.is_super, TransactionContext.with_is_super,
         TransactionContext.with_token])
    | simp [tm_enter, build_session] at h

/-- Witness for C6: a REQUIRED entry joining the ambient context left by a
top-level NEW entry is not super. -/
theorem c6_is_super_characterisation_witness :
    tm_enter .REQUIRED .DEFAULT (some true) none none true σOuter
        = .ok (c6Inner.1, c6Inner.2)
    ∧ (c6Inner.1.is_super = true
        ↔ (Propagation.REQUIRED = Propagation.NEW ∨ σOuter.slot = none))
    ∧ (c6Inner.1.is_super = false
        ↔ (σOuter.slot ≠ none
            ∧ (Propagation.REQUIRED = Propagation.REQUIRED
               ∨ Propagation.REQUIRED = Propagation.MANDATORY))) :=
  ⟨rfl, c6_is_super_characterisation .REQUIRED .DEFAULT (some true) none none
    true σOuter c6Inner.1 c6Inner.2 rfl⟩

/-- C8: confirmed.  Entering a NEW scope while an ambient context is active
draws a fresh session distinct from the ambient one (freshness of the
factory counter given by `hfresh`); after the NEW scope's exit (with any
outcome of its unit, provided its own commit does not raise) the slot again
holds the ambient context unchanged, and no commit, rollback or close was
performed on the ambient session by the NEW scope. -/
theorem c8_new_scope_preserves_ambient (amb : TransactionContext) (n : Nat)
    (l : List Op) (iso : Isolation) (ac : Option Bool)
    (rcb ecb : Option (Option Exc → PyVal)) (d : Bool)
    (beh : Nat → Option Exc) (exc_val : Option Exc)
    (hfresh : amb.session < n) (hbeh : beh n = none) :
    tm_enter .NEW iso ac rcb ecb d ⟨some amb, n, l⟩
        = .ok (enterOk .NEW iso ac rcb ecb d ⟨some amb, n, l⟩)
    ∧ (enterOk .NEW iso ac rcb ecb d ⟨some amb, n, l⟩).1.session ≠ amb.session
    ∧ (tm_exit beh exc_val
        (enterOk .NEW iso ac rcb ecb d ⟨some amb, n, l⟩).2).1.slot = some amb
    ∧ (tm_exit beh exc_val
        (enterOk .NEW iso ac rcb ecb d ⟨some amb, n, l⟩).2).2 = none
    ∧ Op.commit amb.session ∉
        ((tm_exit beh exc_val
          (enterOk .NEW iso ac rcb ecb d ⟨some amb, n, l⟩).2).1.log.drop l.length)
    ∧ Op.rollback amb.session ∉
        ((tm_exit beh exc_val
          (enterOk .NEW iso ac rcb ecb d ⟨some amb, n, l⟩).2).1.log.drop l.length)
    ∧ Op.close amb.session ∉
        ((tm_exit beh exc_val
          (enterOk .NEW iso ac rcb ecb d ⟨some amb, n, l⟩).2).1.log.drop l.length) := by
  have hne : amb.session ≠ n := Nat.ne_of_lt hfresh
  have henter : tm_enter .NEW iso ac rcb ecb d ⟨some amb, n, l⟩ =
      .ok (.mk n .NEW iso (ac.getD d) true true .normal rcb ecb
             (some (some amb)),
           ⟨some (.mk n .NEW iso (ac.getD d) true true .normal rcb ecb
             (some (some amb))), n + 1, l⟩) := by
    unfold tm_enter
    rw [show build_session .NEW ⟨some amb, n, l⟩
          = .ok (n, ⟨some amb, n + 1, l⟩) from rfl]
    simp only [mkTransactionContext_eq]
    rfl
  have hE : enterOk .NEW iso ac rcb ecb d ⟨some amb, n, l⟩ =
      (.mk n .NEW iso (ac.getD d) true true .normal rcb ecb (some (some amb)),
       ⟨some (.mk n .NEW iso (ac.getD d) true true .normal rcb ecb
         (some (some amb))), n + 1, l⟩) := by
    unfold enterOk
    rw [henter]
  have hX : tm_exit beh exc_val
      (enterOk .NEW iso ac rcb ecb d ⟨some amb, n, l⟩).2 =
      ({ slot := some amb, nextSession := n + 1,
         log := l ++ (errOps (.mk n .NEW iso (ac.getD d) true true .normal rcb
             ecb (some (some amb))) exc_val
           ++ (if (TransactionContext.mk n .NEW iso (ac.getD d) true true
                 .normal rcb ecb (some (some amb))).autocommit
               then [Op.commit n] else [])
           ++ [Op.close n]) }, none) := by
    rw [hE]
    exact tm_exit_super_ok
      (.mk n .NEW iso (ac.getD d) true true .normal rcb ecb (some (some amb)))
      (n + 1) l beh exc_val rfl hbeh
  refine ⟨by rw [hE]; exact henter, ?_, ?_, ?_, ?_, ?_, ?_⟩
  · rw [hE]
    show n ≠ amb.session
    omega
  · rw [hX]
  · rw [hX]
  · simp only [hX, List.drop_left]
    cases exc_val <;> cases rcb <;> cases ecb <;>
      simp_all [errOps, TransactionContext.session,
        TransactionContext.autocommit, TransactionContext.exception_callback,
        TransactionContext.rollback_callback]
  · simp only [hX, List.drop_left]
    cases exc_val <;> cases rcb <;> cases ecb <;>
      simp_all [errOps, TransactionContext.session,
        TransactionContext.autocommit, TransactionContext.exception_callback,
        TransactionContext.rollback_callback]
  · simp only [hX, List.drop_left]
    cases exc_val <;> cases rcb <;> cases ecb <;>
      simp_all [errOps, TransactionContext.session,
        TransactionContext.autocommit, TransactionContext.exception_callback,
        TransactionContext.rollback_callback]

/-- Witness for C8: a NEW entry over ambient context `c8Amb` (session 0)
with the factory counter at 1. -/
theorem c8_new_scope_preserves_ambient_witness :
    c8Amb.session < 1 ∧ behOk 1 = none
    ∧ (tm_enter .NEW .DEFAULT (some true) none none true ⟨some c8Amb, 1, []⟩
        = .ok (enterOk .NEW .DEFAULT (some true) none none true
            ⟨some c8Amb, 1, []⟩)
      ∧ (enterOk .NEW .DEFAULT (some true) none none true
          ⟨some c8Amb, 1, []⟩).1.session ≠ c8Amb.session
      ∧ (tm_exit behOk none (enterOk .NEW .DEFAULT (some true) none none true
          ⟨some c8Amb, 1, []⟩).2).1.slot = some c8Amb
      ∧ (tm_exit behOk none (enterOk .NEW .DEFAULT (some true) none none true
          ⟨some c8Amb, 1, []⟩).2).2 = none
      ∧ Op.commit c8Amb.session ∉
          ((tm_exit behOk none (enterOk .NEW .DEFAULT (some true) none none
            true ⟨some c8Amb, 1, []⟩).2).1.log.drop (List.length ([] : List Op)))
      ∧ Op.rollback c8Amb.session ∉
          ((tm_exit behOk none (enterOk .NEW .DEFAULT (some true) none none
            true ⟨some c8Amb, 1, []⟩).2).1.log.drop (List.length ([] : List Op)))
      ∧ Op.close c8Amb.session ∉
          ((tm_exit behOk none (enterOk .NEW .DEFAULT (some true) none none
            true ⟨some c8Amb, 1, []⟩).2).1.log.drop (List.length ([] : List Op)))) :=
  ⟨by decide, rfl,
    c8_new_scope_preserves_ambient c8Amb 1 [] .DEFAULT (some true) none none
      true behOk none (by decide) rfl⟩

/-- Helper: a REQUIRED entry joining an ambient context reuses the ambient
session and becomes the new slot occupant. -/
theorem enter_required_joins (iso : Isolation) (ac : Option Bool)
    (rcb ecb : Option (Option Exc → PyVal)) (d : Bool) (σ : World)
    (tc : TransactionContext) (hslot : σ.slot = some tc) :
    ∃ c σ', tm_enter .REQUIRED iso ac rcb ecb d σ = .ok (c, σ')
      ∧ c.session = tc.session ∧ σ'.slot = some c := by
  obtain ⟨s, n, l⟩ := σ
  simp only at hslot
  subst hslot
  refine ⟨.mk tc.session .REQUIRED iso (ac.getD d) false true .normal rcb ecb
      (some (some tc)),
    ⟨some (.mk tc.session .REQUIRED iso (ac.getD d) false true .normal rcb ecb
      (some (some tc))), n, l⟩, ?_, rfl, rfl⟩
  unfold tm_enter
  rw [show build_session .REQUIRED ⟨some tc, n, l⟩
        = .ok (tc.session, ⟨some tc, n, l⟩) from rfl]
  simp only [mkTransactionContext_eq]
  rfl

/-- Helper: every context produced by a chain of REQUIRED entries carries
the session of the context occupying the slot when the chain starts. -/
theorem required_chain_sessions (d : Bool) (us : List UnitDecl) :
    ∀ (σ : World) (tc : TransactionContext), σ.slot = some tc →
      ∀ c ∈ (required_chain us d σ).1, c.session = tc.session := by
  induction us with
  | nil =>
    intro σ tc _ c hc
    simp [required_chain] at hc
  | cons u us ih =>
    intro σ tc hslot c hc
    obtain ⟨c1, σ1, he, hs, hslot1⟩ :=
      enter_required_joins u.iso u.ac u.rcb u.ecb d σ tc hslot
    rw [required_chain.eq_def] at hc
    simp only [he, List.mem_cons] at hc
    rcases hc with rfl | hc
    · exact hs
    · exact (ih σ1 c1 hslot1 c hc).trans hs

/-- C9: confirmed.  After any successful outer entry declared REQUIRED or
NEW, every context produced by a chain of nested REQUIRED entries (of any
depth, with arbitrary per-unit parameters) holds the identical session as
the outer entry's context. -/
theorem c9_nested_required_share_outer_session (p0 : Propagation)
    (_hp0 : p0 = .REQUIRED ∨ p0 = .NEW) (iso0 : Isolation) (ac0 : Option Bool)
    (rcb0 ecb0 : Option (Option Exc → PyVal)) (d : Bool) (σ0 : World)
    (c0 : TransactionContext) (σ1 : World)
    (h : tm_enter p0 iso0 ac0 rcb0 ecb0 d σ0 = .ok (c0, σ1))
    (us : List UnitDecl) :
    ∀ c ∈ (required_chain us d σ1).1, c.session = c0.session :=
  required_chain_sessions d us σ1 c0
    (enter_slot_some p0 iso0 ac0 rcb0 ecb0 d σ0 c0 σ1 h)

/-- Witness for C9: one REQUIRED unit nested inside a top-level NEW entry. -/
theorem c9_nested_required_share_outer_session_witness :
    tm_enter .NEW .DEFAULT (some true) none none true world0 = .ok (c0W, σOuter)
    ∧ c9Elem ∈ (required_chain [u9W] true σOuter).1
    ∧ c9Elem.session = c0W.session := by
  have hm : c9Elem ∈ (required_chain [u9W] true σOuter).1 := by
    show c9Elem ∈ [c9Elem]
    exact List.mem_singleton.mpr rfl
  exact ⟨rfl, hm,
    c9_nested_required_share_outer_session .NEW (Or.inr rfl) .DEFAULT
      (some true) none none true world0 c0W σOuter rfl [u9W] c9Elem hm⟩

/-- Counterexample to C8 as stated: when the NEW scope's own
`session.commit()` raises, its exit aborts (`raise e`) before
`transaction_pop`, so the ambient context (session 0) is not restored — the
slot still holds the NEW scope's own context (session 1) after the NEW
scope has exited. -/
theorem c8_counterexample_commit_failure_blocks_restore :
    runC8.1.slot.map TransactionContext.session = some 1
    ∧ c8Amb.session = 0
    ∧ runC8.2 = some (Exc.commitFailure 7) := by
  decide
